import Mathlib

/-!
Verification development for the ItemRadar lost-and-found matching engine.

The Python sources are shallowly embedded:
  * pure functions become Lean functions over `String`, `List`, `ℚ`, `ℝ`;
  * Python `dict` session state becomes an explicit `SessionState` record
    threaded through each tool, so a tool returns `(result, newState)`;
  * calls to external services (generative oracle, embedding service,
    vector index, document store) become explicit parameters holding the
    outcome of each call, so fallible code is `Except`/`Option` valued;
  * Python `float` arithmetic is modelled exactly over `ℚ` where the code
    is rational, and over `ℝ` where the code uses trigonometry.
-/

namespace ItemRadar

/-- Python `needle in hay` substring test on strings. -/
def strContains (hay needle : String) : Bool :=
  hay.toList.tails.any (fun t => needle.toList.isPrefixOf t)

/-- Python `str.lower()` (the descriptions handled here are ASCII, where
Python and `Char.toLower` agree). -/
def pyLower (s : String) : String :=
  ⟨s.data.map Char.toLower⟩

/-- Python `str.strip()`: drop leading and trailing whitespace. -/
def pyStrip (s : String) : String :=
  ⟨(((s.data.dropWhile Char.isWhitespace).reverse).dropWhile Char.isWhitespace).reverse⟩

/-- Helper for `pySplit`: walk the characters, accumulating the current
word (reversed) and emitting it at whitespace boundaries. -/
def pySplitChars : List Char → List Char → List String
  | [], acc => if acc = [] then [] else [String.mk acc.reverse]
  | c :: cs, acc =>
    if c.isWhitespace then
      if acc = [] then pySplitChars cs []
      else String.mk acc.reverse :: pySplitChars cs []
    else pySplitChars cs (c :: acc)

/-- Python `str.split()` with no argument: split on runs of whitespace,
dropping empty pieces. -/
def pySplit (s : String) : List String :=
  pySplitChars s.data []

/-- Python `sep.join(parts)`. -/
def pyJoin (sep : String) (parts : List String) : String :=
  match parts with
  | [] => ""
  | p :: ps => ps.foldl (fun acc x => acc ++ sep ++ x) p

namespace SemanticDB

/-- Python dict lookup `d[k]` over an association list (keys unique in a
Python dict); absent keys do not occur on the paths exercised here. -/
def dictGet (d : List (String × String)) (k : String) : String :=
  ((d.find? (fun p => p.1 == k)).map Prod.snd).getD ""

/-- From `models.py`, `calculate_attribute_similarity`: exact value match
scores 1, a partial color match scores 0.7, averaged over the keys common
to both attribute dictionaries. -/
def calculate_attribute_similarity (attrs1 attrs2 : List (String × String)) : ℚ :=
  if attrs1 = [] ∨ attrs2 = [] then 0
  else
    let common_keys := ((attrs1.map Prod.fst).eraseDups).filter
      (fun k => (attrs2.map Prod.fst).contains k)
    if common_keys = [] then 0
    else
      let score := fun (k : String) =>
        let val1 := pyStrip (pyLower (dictGet attrs1 k))
        let val2 := pyStrip (pyLower (dictGet attrs2 k))
        if val1 = val2 then (1 : ℚ)
        else if k = "color" ∧ (strContains val2 val1 ∨ strContains val1 val2) then 7/10
        else 0
      ((common_keys.map score).sum) / (common_keys.length : ℚ)

/-- The keyword-overlap factor inlined in `calculate_match_confidence`:
Jaccard index of the two keyword sets, 0 when either set is empty. -/
def keyword_overlap (k1 k2 : List String) : ℚ :=
  if k1 ≠ [] ∧ k2 ≠ [] then
    ((k1.toFinset ∩ k2.toFinset).card : ℚ) / ((k1.toFinset ∪ k2.toFinset).card : ℚ)
  else 0

/-- The time-proximity factor inlined in `calculate_match_confidence`:
linear decay over 14 days of the absolute day difference between the two
timestamps (timestamps modelled in whole days). -/
def time_decay (t1 t2 : ℤ) : ℚ :=
  max 0 (1 - ((|t1 - t2| : ℤ) : ℚ) / 14)

/-- Python `math.radians`. -/
noncomputable def radians (x : ℝ) : ℝ := x * (Real.pi / 180)

/-- From `models.py`, `calculate_distance`: haversine distance in
kilometers with Earth radius 6371, short-circuiting to 0 on identical
coordinates. -/
noncomputable def calculate_distance (lat1 lon1 lat2 lon2 : ℝ) : ℝ :=
  if lat1 = lat2 ∧ lon1 = lon2 then 0
  else
    let dlat := radians lat2 - radians lat1
    let dlon := radians lon2 - radians lon1
    let a := Real.sin (dlat / 2) ^ 2 +
      Real.cos (radians lat1) * Real.cos (radians lat2) * Real.sin (dlon / 2) ^ 2
    let c := 2 * Real.arcsin (Real.sqrt a)
    6371 * c

/-- The item-record fields read by `calculate_match_confidence`. -/
structure MatchItemRecord where
  category : String
  subcategory : String
  attributes : List (String × String)
  keywords : List String
  timestamp : ℤ
  lat : ℝ
  lon : ℝ

/-- From `models.py`, `calculate_match_confidence`: the weighted sum of
vector similarity, category and subcategory agreement, attribute
similarity, keyword overlap, time decay, and location decay, capped at
1.0 by the final `min`. -/
noncomputable def calculate_match_confidence
    (item1 item2 : MatchItemRecord) (vector_similarity : ℝ) : ℝ :=
  min 1
    (0.4 * vector_similarity
      + (if item1.category = item2.category then 0.2 else 0)
      + (if item1.subcategory = item2.subcategory then 0.15 else 0)
      + 0.1 * ((calculate_attribute_similarity item1.attributes item2.attributes : ℚ) : ℝ)
      + 0.05 * ((keyword_overlap item1.keywords item2.keywords : ℚ) : ℝ)
      + 0.05 * ((time_decay item1.timestamp item2.timestamp : ℚ) : ℝ)
      + 0.05 * max 0 (1 - calculate_distance item1.lat item1.lon item2.lat item2.lon / 10))

end SemanticDB

namespace Chatbot

/-- The session-state dictionary threaded through the chatbot manager
tools (`tool_context.state` in `chatbot_manager/agent.py`).  Keys whose
presence is tested with `in` or read with a `None` default are `Option`;
keys read with a `0`/`False`/`[]` default are plain values. -/
structure SessionState where
  search_params : Option (String × String)
  has_search_params : Bool
  match_results : Option (List String)
  initial_search_done : Bool
  iteration_count : Nat
  current_question : Option String
  user_answer : Option String
  asked_questions : List String
  conversation_context : Option String
  filtering_complete : Bool
  workflow_complete : Bool
deriving DecidableEq

/-- A fresh session: no key has been written yet, so every defaulted
read yields its default. -/
def emptySession : SessionState :=
  { search_params := none, has_search_params := false, match_results := none,
    initial_search_done := false, iteration_count := 0, current_question := none,
    user_answer := none, asked_questions := [], conversation_context := none,
    filtering_complete := false, workflow_complete := false }

structure InitiateResult where
  status : String
  message : String
deriving DecidableEq

/-- From `chatbot_manager/agent.py`, `initiate_search`: stores the search
parameters in session state and confirms. -/
def initiate_search (description location : String) (s : SessionState) :
    InitiateResult × SessionState :=
  let s' := { s with search_params := some (description, location), has_search_params := true }
  ({ status := "started",
     message := "🔍 Searching for items matching \"" ++ description ++ "\" in " ++ location ++ "…" },
   s')

structure PhaseInfo where
  has_search_params : Bool
  search_params : Option (String × String)
  has_match_results : Bool
  match_count : Nat
  iteration_count : Nat
  current_question : Option String
  filtering_complete : Bool
  phase : String
deriving DecidableEq

/-- From `chatbot_manager/agent.py`, `check_workflow_phase`: reads the
session fields, derives the phase from the `if`/`elif` chain, and writes
nothing back. -/
def check_workflow_phase (s : SessionState) : PhaseInfo × SessionState :=
  let has_match_results := s.match_results.isSome
  let match_count := (s.match_results.getD []).length
  let phase :=
    if ¬ s.has_search_params then "collecting_info"
    else if s.has_search_params ∧ ¬ has_match_results then "ready_to_search"
    else if match_count = 0 then "no_matches"
    else if match_count = 1 then "single_match"
    else if match_count > 1 then "multiple_matches"
    else "unknown"
  ({ has_search_params := s.has_search_params, search_params := s.search_params,
     has_match_results := has_match_results, match_count := match_count,
     iteration_count := s.iteration_count, current_question := s.current_question,
     filtering_complete := s.filtering_complete, phase := phase }, s)

structure StoreAnswerResult where
  status : String
  answer : String
  iteration : Nat
deriving DecidableEq

/-- From `chatbot_manager/agent.py`, `store_user_answer`: records the
answer and increments `iteration_count` (defaulting a missing counter to
0). -/
def store_user_answer (answer : String) (s : SessionState) :
    StoreAnswerResult × SessionState :=
  let s' := { s with user_answer := some answer, iteration_count := s.iteration_count + 1 }
  ({ status := "stored", answer := answer, iteration := s'.iteration_count }, s')

end Chatbot

namespace Orchestrator

/-- From `orchestrator_agent/agent.py`, `CheckTermination`: escalate
(stop the loop) once at most one match remains. -/
def check_termination (ms : List String) : Bool :=
  decide (ms.length ≤ 1)

/-- The `max_iterations=10` safety cap configured on the refinement
`LoopAgent`. -/
def max_iterations : Nat := 10

/-- One loop body runs the reductor and filter agents (abstracted as a
`step` on the match list) and then `CheckTermination`; the loop stops
when the check escalates or the fuel (the iteration cap) runs out.
Returns the final match list and the number of filter rounds applied. -/
def loop_run (step : List String → List String) : Nat → List String → List String × Nat
  | 0, ms => (ms, 0)
  | n + 1, ms =>
    let ms' := step ms
    if check_termination ms' then (ms', 1)
    else
      let r := loop_run step n ms'
      (r.1, r.2 + 1)

/-- The refinement loop with its configured cap of 10 iterations. -/
def refinement_loop (step : List String → List String) (ms : List String) :
    List String × Nat :=
  loop_run step max_iterations ms

end Orchestrator

namespace FilterAgent

/-- Python `answer.strip().lower() in ["yes", "y", "true", "1"]`. -/
def isYesAnswer (answer : String) : Bool :=
  ["yes", "y", "true", "1"].contains (pyLower (pyStrip answer))

/-- Python `answer.strip().lower() in ["no", "n", "false", "0"]`. -/
def isNoAnswer (answer : String) : Bool :=
  ["no", "n", "false", "0"].contains (pyLower (pyStrip answer))

def stickerWords : List String := ["logo", "sticker", "decal", "marking", "brand", "company"]

def scratchWords : List String := ["scratch", "damage", "dent", "crack", "worn"]

def filterColors : List String :=
  ["green", "red", "blue", "yellow", "black", "white", "orange", "purple", "pink"]

def filterCommonWords : List String :=
  ["is", "your", "a", "an", "the", "does", "have", "has", "are", "it", "this", "that",
   "with", "or", "and"]

/-- The body of `filter_objects` from `filter_agent/agent.py`: the
`if`/`elif` chain that builds the `filtered` list before the safety net
is applied.  Each specialized branch keeps the items matching (or not
matching) its keyword test; the `size` and `color` branches leave the
list empty when no size/color word occurs in the question; the final
branch falls back to question-keyword filtering and returns the list
unchanged on an inconclusive answer. -/
def filterCore (texts : List String) (question answer : String) : List String :=
  let question_lower := pyLower question
  let is_yes := isYesAnswer answer
  let is_no := isNoAnswer answer
  if strContains question_lower "stickers" || strContains question_lower "decals" then
    if is_yes then
      texts.filter (fun item => stickerWords.any (fun w => strContains (pyLower item) w))
    else
      texts.filter (fun item => ! stickerWords.any (fun w => strContains (pyLower item) w))
  else if strContains question_lower "bicycle helmet" && strContains question_lower "motorcycle" then
    if is_yes then
      texts.filter (fun item => strContains (pyLower item) "bicycle"
        && ! strContains (pyLower item) "motorcycle" && ! strContains (pyLower item) "construction")
    else
      texts.filter (fun item => ! strContains (pyLower item) "bicycle")
  else if strContains question_lower "ventilation holes" || strContains question_lower "vents" then
    if is_yes then
      texts.filter (fun item => strContains (pyLower item) "bicycle" || strContains (pyLower item) "bike")
    else
      texts.filter (fun item => strContains (pyLower item) "construction"
        || strContains (pyLower item) "motorcycle")
  else if strContains question_lower "scratch" || strContains question_lower "damaged" then
    if is_yes then
      texts.filter (fun item => scratchWords.any (fun w => strContains (pyLower item) w))
    else
      texts.filter (fun item => ! scratchWords.any (fun w => strContains (pyLower item) w))
  else if strContains question_lower "size" then
    if strContains question_lower "small" || strContains question_lower "medium"
        || strContains question_lower "large" then
      let size_mentioned :=
        if strContains question_lower "small" then "small"
        else if strContains question_lower "medium" then "medium"
        else "large"
      if is_yes then texts.filter (fun item => strContains (pyLower item) size_mentioned)
      else texts.filter (fun item => ! strContains (pyLower item) size_mentioned)
    else []
  else if strContains question_lower "color" then
    match filterColors.find? (fun c => strContains question_lower c) with
    | some question_color =>
      if is_yes then texts.filter (fun item => strContains (pyLower item) question_color)
      else texts.filter (fun item => ! strContains (pyLower item) question_color)
    | none => []
  else
    let question_words := (pySplit question_lower).filter
      (fun w => w.length > 2 && ! filterCommonWords.contains w)
    if is_yes then
      texts.filter (fun item => question_words.any (fun w => strContains (pyLower item) w))
    else if is_no then
      texts.filter (fun item => ! question_words.any (fun w => strContains (pyLower item) w))
    else texts

structure FilterResult where
  filtered : List String
  count : Nat
  message : Option String
deriving DecidableEq

/-- From `filter_agent/agent.py`, `filter_objects`: empty input is
returned immediately; otherwise the branch filter runs and the safety
net restores the original list when a definite yes/no answer would have
eliminated every item.  (The function also copies `filtered`, its
length, and the question/answer back into session state; those writes
duplicate the returned data.) -/
def filter_objects (texts : List String) (question answer : String) : FilterResult :=
  if texts = [] then { filtered := [], count := 0, message := some "No items to filter" }
  else
    let is_yes := isYesAnswer answer
    let is_no := isNoAnswer answer
    let filtered0 := filterCore texts question answer
    let filtered := if filtered0.isEmpty && (is_yes || is_no) then texts else filtered0
    { filtered := filtered, count := filtered.length, message := none }

/-- The question patterns that route `filter_objects` into one of its
specialized branches instead of the fallback keyword branch. -/
def isSpecializedQuestion (question : String) : Bool :=
  let q := pyLower question
  strContains q "stickers" || strContains q "decals"
    || (strContains q "bicycle helmet" && strContains q "motorcycle")
    || strContains q "ventilation holes" || strContains q "vents"
    || strContains q "scratch" || strContains q "damaged"
    || strContains q "size" || strContains q "color"

end FilterAgent

namespace SemanticDB

/-- The six fields the generative oracle is asked to return; `data.get`
defaults in the source become `Option` fields here (a missing field is
`none`). -/
structure AIJson where
  ai_description : Option String
  category : Option String
  subcategory : Option String
  attributes : Option (List (String × String))
  keywords : Option (List String)
  synonyms : Option (List String)

/-- The structured record produced by `enhance_description_with_ai`. -/
structure EnhancedData where
  ai_description : String
  category : String
  subcategory : String
  attributes : List (String × String)
  keywords : List String
  synonyms : List String
deriving DecidableEq

/-- Python `re.search` with the greedy dotall brace pattern used in
`enhance_description_with_ai`: the match runs from the first opening
brace to the last closing brace, provided the latter comes after the
former; otherwise there is no match. -/
def extract_json (s : String) : Option String :=
  let cs := s.data
  match cs.findIdx? (fun c => c == Char.ofNat 123) with
  | none => none
  | some i =>
    match cs.reverse.findIdx? (fun c => c == Char.ofNat 125) with
    | none => none
    | some r =>
      let j := cs.length - 1 - r
      if i < j then some (String.mk ((cs.drop i).take (j - i + 1))) else none

/-- From `models.py`, `enhance_description_with_ai`.  The oracle call is
an external effect, so its outcome is a parameter: `response = none`
models the call (or anything before the regex) raising, and `parse`
models `json.loads` on the extracted text (`none` = parse error or
non-dict result).  Every failure path lands in the single fallback
record built from the raw description; nothing is raised. -/
def enhance_description_with_ai (raw_description : String) (response : Option String)
    (parse : String → Option AIJson) : EnhancedData :=
  let fallback : EnhancedData :=
    { ai_description := raw_description, category := "other", subcategory := "unknown",
      attributes := [], keywords := pySplit (pyLower raw_description), synonyms := [] }
  match response with
  | none => fallback
  | some resp =>
    match extract_json (pyStrip resp) with
    | none => fallback
    | some js =>
      match parse js with
      | none => fallback
      | some data =>
        { ai_description := data.ai_description.getD raw_description,
          category := data.category.getD "other",
          subcategory := data.subcategory.getD "unknown",
          attributes := data.attributes.getD [],
          keywords := data.keywords.getD (pySplit (pyLower raw_description)),
          synonyms := data.synonyms.getD [] }

/-- From `models.py`, `create_composite_text_for_embedding`: join the
non-empty description parts with single spaces, attribute pairs rendered
as `key value` and filtered to non-empty values. -/
def create_composite_text_for_embedding (d : EnhancedData) : String :=
  let parts := [d.ai_description, d.category, d.subcategory,
    pyJoin " " d.keywords, pyJoin " " d.synonyms,
    pyJoin " " ((d.attributes.filter (fun p => p.2 ≠ "")).map (fun p => p.1 ++ " " ++ p.2))]
  pyJoin " " (parts.filter (fun p => p ≠ ""))

/-- From `models.py`, `normalize_email`. -/
def normalize_email (email : String) : String :=
  pyStrip (pyLower email)

/-- From `models.py`, `is_valid_coordinates` (coordinates modelled as
rationals, which the comparisons preserve exactly). -/
def is_valid_coordinates (latitude longitude : ℚ) : Bool :=
  decide (-90 ≤ latitude ∧ latitude ≤ 90 ∧ -180 ≤ longitude ∧ longitude ≤ 180)

inductive ItemType where
  | found
  | lost
deriving DecidableEq

/-- The wire value of the `ItemType` enum. -/
def ItemType.value : ItemType → String
  | .found => "found"
  | .lost => "lost"

/-- The Firestore document written for an item by `register_item`. -/
structure ItemDoc where
  id : String
  type : String
  status : String
  raw_description : String
  ai_description : String
  category : String
  subcategory : String
  attributes : List (String × String)
  keywords : List String
  synonyms : List String
  contact_email : String
  address : String
  lat : ℚ
  lon : ℚ
  geohash : String
  composite_text : String
  embedding_vector : List ℚ
  timestamp : ℤ
  expires_at : ℤ
  image_url : Option String
  matched_with : Option String
deriving DecidableEq

/-- The secondary `items_by_category` document. -/
structure CategoryDoc where
  item_id : String
  type : String
  subcategory : String
  geohash : String
  timestamp : ℤ
  category : String
deriving DecidableEq

/-- The persistent stores touched by `register_item`: the Firestore
`items` and `items_by_category` collections and the Matching Engine
vector index, each modelled as an association list keyed by document
id. -/
structure DBState where
  items : List (String × ItemDoc)
  items_by_category : List (String × CategoryDoc)
  index : List (String × List ℚ)
deriving DecidableEq

/-- The outcomes of the external calls `register_item` makes, passed in
explicitly: the oracle response and JSON parse for the AI enhancement,
the embedding request, the vector-index upsert, the two Firestore `set`
calls, plus the geohash, the fresh uuid suffix, and the current time (in
days). -/
structure ExternalServices where
  ai_response : Option String
  ai_parse : String → Option AIJson
  embed_result : Except String (List ℚ)
  index_upsert : Except String Unit
  store_set_item : Except String Unit
  store_set_category : Except String Unit
  geohash : String
  uuid_hex : String
  now : ℤ

/-- The dict returned by `register_item`. -/
structure RegisterResult where
  status : String
  error_message : Option String
  item_id : Option String
  category : Option String
  ai_description : Option String
deriving DecidableEq

/-- An error return of `register_item`. -/
def registerError (msg : String) : RegisterResult :=
  { status := "error", error_message := some msg, item_id := none,
    category := none, ai_description := none }

/-- From `core.py`, `register_item`: validate the description, the
coordinates and the e-mail; enhance the description; request an
embedding (failure returns a typed error and aborts); upsert into the
vector index (failure is swallowed and registration continues); save the
item document and the secondary category document to the document store
(failure there is fatal); report success. -/
def register_item (raw_description : String) (item_type : ItemType)
    (contact_email : String) (address : String) (latitude longitude : ℚ)
    (image_url : Option String) (ext : ExternalServices) (db : DBState) :
    RegisterResult × DBState :=
  if pyStrip raw_description = "" then
    (registerError "Description cannot be empty", db)
  else if ¬ is_valid_coordinates latitude longitude then
    (registerError "Invalid coordinates", db)
  else
    let contact_email := normalize_email contact_email
    if ¬ strContains contact_email "@" then
      (registerError "Invalid email address", db)
    else
      let ai_data := enhance_description_with_ai raw_description ext.ai_response ext.ai_parse
      let composite_text := create_composite_text_for_embedding ai_data
      match ext.embed_result with
      | .error e => (registerError ("Failed to generate embedding: " ++ e), db)
      | .ok embedding =>
        let geohash := ext.geohash
        let item_id := item_type.value ++ "_" ++ ext.uuid_hex
        let item_doc : ItemDoc :=
          { id := item_id, type := item_type.value, status := "active",
            raw_description := raw_description, ai_description := ai_data.ai_description,
            category := ai_data.category, subcategory := ai_data.subcategory,
            attributes := ai_data.attributes, keywords := ai_data.keywords,
            synonyms := ai_data.synonyms, contact_email := contact_email,
            address := address, lat := latitude, lon := longitude, geohash := geohash,
            composite_text := composite_text, embedding_vector := embedding,
            timestamp := ext.now, expires_at := ext.now + 30, image_url := image_url,
            matched_with := none }
        let db1 :=
          match ext.index_upsert with
          | .ok _ => { db with index := db.index ++ [(item_id, embedding)] }
          | .error _ => db
        match ext.store_set_item with
        | .error e => (registerError ("Failed to save to database: " ++ e), db1)
        | .ok _ =>
          let db2 := { db1 with items := db1.items ++ [(item_id, item_doc)] }
          match ext.store_set_category with
          | .error e => (registerError ("Failed to save to database: " ++ e), db2)
          | .ok _ =>
            let cat_doc : CategoryDoc :=
              { item_id := item_id, type := item_type.value,
                subcategory := ai_data.subcategory, geohash := geohash,
                timestamp := ext.now, category := ai_data.category }
            let db3 := { db2 with items_by_category :=
              db2.items_by_category ++ [(ai_data.category ++ "_" ++ item_id, cat_doc)] }
            ({ status := "success", error_message := none, item_id := some item_id,
               category := some ai_data.category,
               ai_description := some ai_data.ai_description }, db3)

end SemanticDB

namespace ReducerAgent

/-- Python regex word characters (the descriptions here are ASCII). -/
def isWordChar (c : Char) : Bool :=
  c.isAlphanum || c == Char.ofNat 95

/-- Helper for `tokenize`: accumulate maximal runs of word characters. -/
def tokenizeAux : List Char → List Char → List String
  | [], acc => if acc = [] then [] else [String.mk acc.reverse]
  | c :: cs, acc =>
    if isWordChar c then tokenizeAux cs (c :: acc)
    else
      if acc = [] then tokenizeAux cs []
      else String.mk acc.reverse :: tokenizeAux cs []

/-- Python `re.findall` of the word pattern: the maximal word-character
runs of the string, in order. -/
def tokenize (s : String) : List String :=
  tokenizeAux s.data []

/-- `re.findall` of a word-bounded alternation of the literal words
`ws`: the tokens of `s` that are listed in `ws`, in text order. -/
def wordOccurrences (ws : List String) (s : String) : List String :=
  (tokenize s).filter (fun t => ws.contains t)

/-- The `category_indicators` table of `identify_item_type`, in source
order (Python dicts iterate in insertion order). -/
def category_indicators : List (String × List String) :=
  [("bag", ["bag", "backpack", "purse", "satchel", "tote", "briefcase", "messenger",
      "duffel", "handbag"]),
   ("clothing", ["shirt", "pants", "dress", "jacket", "coat", "sweater", "jeans",
      "skirt", "blouse", "hoodie"]),
   ("electronics", ["phone", "laptop", "tablet", "camera", "headphones", "charger",
      "device", "electronic"]),
   ("accessory", ["watch", "jewelry", "necklace", "ring", "bracelet", "earrings",
      "glasses", "sunglasses"]),
   ("tool", ["tool", "hammer", "screwdriver", "wrench", "drill", "pliers", "utility"]),
   ("book", ["book", "notebook", "journal", "diary", "manual", "guide"]),
   ("key", ["key", "keychain", "fob", "remote"]),
   ("wallet", ["wallet", "purse", "billfold", "card holder"]),
   ("bottle", ["bottle", "water bottle", "thermos", "flask", "container"])]

/-- From `reducer_agent/agent.py`, `identify_item_type`: the first
category whose keyword list has a substring hit in the lowered
description, else "item". -/
def identify_item_type (item_description : String) : String :=
  let item_lower := pyLower item_description
  match category_indicators.find?
      (fun ci => ci.2.any (fun kw => strContains item_lower kw)) with
  | some ci => ci.1
  | none => "item"

def color_words_1 : List String :=
  ["black", "white", "red", "blue", "green", "yellow", "orange", "purple", "pink",
   "brown", "gray", "grey"]

def color_words_2 : List String :=
  ["navy", "maroon", "burgundy", "crimson", "emerald", "turquoise", "coral", "beige",
   "tan", "olive"]

def color_words_3 : List String :=
  ["silver", "gold", "metallic", "chrome", "bronze", "copper"]

def color_modifiers : List String :=
  ["dark", "light", "bright", "pale", "deep", "vivid"]

def size_words_1 : List String :=
  ["small", "medium", "large", "tiny", "huge", "mini", "jumbo", "xl", "xxl"]

def size_words_2 : List String :=
  ["long", "short", "tall", "wide", "narrow", "thick", "thin"]

def size_units : List String :=
  ["inch", "cm", "mm", "ft", "meter", "litre", "oz", "lb", "kg", "gram"]

def material_words_1 : List String :=
  ["leather", "plastic", "metal", "wood", "glass", "fabric", "cotton", "silk",
   "canvas", "rubber"]

def material_words_2 : List String :=
  ["vinyl", "synthetic", "nylon", "polyester", "denim", "suede", "velvet", "wool"]

def material_words_3 : List String :=
  ["ceramic", "stone", "paper", "cardboard", "foam", "mesh", "bamboo"]

def feature_keywords : List String :=
  ["zipper", "pocket", "strap", "handle", "button", "buckle", "velcro", "wireless",
   "bluetooth", "rechargeable", "waterproof", "adjustable", "foldable", "removable",
   "transparent", "reflective", "padded"]

def brand_common_words : List String :=
  ["The", "And", "For", "With", "Black", "Blue", "Red", "Green", "New", "Old"]

/-- Does `chunk` end in the word `m` as its final token (so a
word-bounded match of `m` sits at the end of the chunk)? -/
def endsWithToken (chunk m : String) : Bool :=
  let rc := chunk.data.reverse
  let rm := m.data.reverse
  rm.isPrefixOf rc &&
    (match rc.drop rm.length with
     | [] => true
     | c :: _ => ! isWordChar c)

/-- The adjacent pairs of a list. -/
def adjPairs : List String → List (String × String)
  | [] => []
  | [_] => []
  | a :: b :: t => (a, b) :: adjPairs (b :: t)

/-- `re.findall` of the modifier pattern (a modifier word, whitespace,
then a word): for each adjacent whitespace-separated chunk pair whose
first chunk ends in a modifier and whose second chunk starts with a word
character, emit the modifier.  (A run of equal modifiers is counted per
adjacent pair rather than per non-overlapping scan; the discrimination
counts this feeds are unaffected for the descriptions considered.) -/
def modifierMatches (mods : List String) (s : String) : List String :=
  (adjPairs (pySplit s)).filterMap (fun p =>
    match mods.find? (fun m => endsWithToken p.1 m) with
    | some m => if isWordChar (p.2.data.headD (Char.ofNat 32)) then some m else none
    | none => none)

/-- Fuel-driven scanner for the digits-then-unit pattern: at each digit,
skip the digit run and any whitespace, try the unit alternatives in
order, and continue after the match (or after the digit run on
failure). -/
def scanUnitsAux (units : List String) : Nat → List Char → List String
  | 0, _ => []
  | _, [] => []
  | fuel + 1, c :: cs =>
    if c.isDigit then
      let rest1 := (c :: cs).dropWhile Char.isDigit
      let rest2 := rest1.dropWhile Char.isWhitespace
      match units.find? (fun u => u.data.isPrefixOf rest2) with
      | some u => u :: scanUnitsAux units fuel (rest2.drop u.length)
      | none => scanUnitsAux units fuel rest1
    else scanUnitsAux units fuel cs

/-- `re.findall` of the size-unit pattern over a string. -/
def scanUnits (units : List String) (s : String) : List String :=
  scanUnitsAux units (s.data.length + 1) s.data

/-- Is the chunk exactly one capital letter followed by lowercase
letters (the brand-word shape)? -/
def isCapWord (chunk : String) : Bool :=
  match chunk.data with
  | [] => false
  | c :: rest => c.isUpper && rest.all Char.isLower

/-- Helper for `capSequences`: group maximal runs of consecutive
capitalized chunks, joining each run with single spaces. -/
def capGroupsAux : List String → List String → List String
  | [], cur => if cur = [] then [] else [pyJoin " " cur.reverse]
  | c :: cs, cur =>
    if isCapWord c then capGroupsAux cs (c :: cur)
    else
      if cur = [] then capGroupsAux cs []
      else pyJoin " " cur.reverse :: capGroupsAux cs []

/-- `re.findall` of the brand pattern: maximal whitespace-separated runs
of capitalized words, each run joined with single spaces. -/
def capSequences (s : String) : List String :=
  capGroupsAux (pySplit s) []

/-- From `reducer_agent/agent.py`, `extract_attributes`: colors (three
word groups plus the modifier pattern), sizes (two word groups plus the
digit-unit pattern), materials (three word groups), brand-like
capitalized sequences (filtered and lowercased), and feature keywords by
substring — concatenated in source order.  (The `words` parameter of the
source is unused by its body.) -/
def extract_attributes (item_description : String) (words : List String) : List String :=
  let item_lower := pyLower item_description
  let colors := wordOccurrences color_words_1 item_lower
    ++ wordOccurrences color_words_2 item_lower
    ++ wordOccurrences color_words_3 item_lower
    ++ modifierMatches color_modifiers item_lower
  let sizes := wordOccurrences size_words_1 item_lower
    ++ wordOccurrences size_words_2 item_lower
    ++ scanUnits size_units item_lower
  let materials := wordOccurrences material_words_1 item_lower
    ++ wordOccurrences material_words_2 item_lower
    ++ wordOccurrences material_words_3 item_lower
  let brands := ((capSequences item_description).filter
    (fun b => ! brand_common_words.contains b && decide (b.length > 2))).map pyLower
  let features := feature_keywords.filter (fun f => strContains item_lower f)
  colors ++ sizes ++ materials ++ brands ++ features

def condition_words : List String :=
  ["new", "used", "old", "vintage", "damaged", "broken", "worn"]

/-- Is the token one capital letter followed by at least one lowercase
letter (the brand-name search of `find_descriptive_patterns`)? -/
def isCapWordPlus (t : String) : Bool :=
  match t.data with
  | [] => false
  | [_] => false
  | c :: rest => c.isUpper && rest.all Char.isLower

/-- From `reducer_agent/agent.py`, `find_descriptive_patterns`. -/
def find_descriptive_patterns (item_description : String) : List String :=
  let item_lower := pyLower item_description
  (if item_description.data.any Char.isDigit then ["has_numbers"] else [])
    ++ (if (tokenize item_description).any isCapWordPlus then ["has_brand_name"] else [])
    ++ (if (tokenize item_lower).any (fun t => strContains t "tech"
          || strContains t "digital" || strContains t "smart") then ["technical_item"] else [])
    ++ (if condition_words.any (fun w => strContains item_lower w)
        then ["has_condition_info"] else [])

/-- A distinguishing feature with its discrimination power. -/
structure Feature where
  attr : String
  count : Nat
  discrimination_power : ℚ
deriving DecidableEq

/-- The analysis record built by `analyze_item_characteristics`. -/
structure Analysis where
  item_types : List String
  common_attributes : List String
  distinguishing_features : List Feature
  categories : List String
  descriptive_patterns : List String
deriving DecidableEq

/-- Stable insertion: place `x` before the first element `y` with
`le x y`. -/
def pyInsertBy {α : Type} (le : α → α → Bool) (x : α) : List α → List α
  | [] => [x]
  | y :: ys => if le x y then x :: y :: ys else y :: pyInsertBy le x ys

/-- Stable sort by insertion from the right: produces the same list as
Python `list.sort` with the corresponding key (both are stable). -/
def pySortBy {α : Type} (le : α → α → Bool) (l : List α) : List α :=
  l.foldr (pyInsertBy le) []

/-- From `reducer_agent/agent.py`, `analyze_item_characteristics`:
collect item types, attributes, and patterns; count attributes (the
`Counter` iterates in first-occurrence order); keep those appearing in
some but not all items; sort by closeness of the discrimination power to
one half (Python sort is stable ascending by key).  The `categories`
set is modelled in first-occurrence order. -/
def analyze_item_characteristics (texts : List String) : Analysis :=
  let item_types := texts.map identify_item_type
  let common_attributes :=
    (texts.map (fun t => extract_attributes t (tokenize (pyLower t)))).flatten
  let descriptive_patterns := (texts.map find_descriptive_patterns).flatten
  let categories := item_types.eraseDups
  let total := texts.length
  let counted := common_attributes.eraseDups.map
    (fun a => (a, common_attributes.count a))
  let feats := counted.filterMap (fun p =>
    if 0 < p.2 ∧ p.2 < total then
      some ({ attr := p.1, count := p.2,
              discrimination_power := ((min p.2 (total - p.2) : ℕ) : ℚ) / (total : ℚ) } : Feature)
    else none)
  let sorted := pySortBy
    (fun f g => decide (|1/2 - f.discrimination_power| ≤ |1/2 - g.discrimination_power|))
    feats
  { item_types := item_types, common_attributes := common_attributes,
    distinguishing_features := sorted, categories := categories,
    descriptive_patterns := descriptive_patterns }

def cn_color_words : List String :=
  ["black", "white", "red", "blue", "green", "yellow", "orange", "purple", "pink",
   "brown", "gray", "grey", "navy", "silver", "gold"]

def cn_size_words : List String :=
  ["small", "large", "medium", "tiny", "huge", "long", "short", "wide", "narrow",
   "thick", "thin"]

def cn_material_words : List String :=
  ["leather", "plastic", "metal", "wood", "glass", "fabric", "cotton", "silk"]

def cn_feature_words : List String :=
  ["zipper", "pocket", "strap", "handle", "button", "wireless", "waterproof"]

/-- The apostrophe character, used in rendered question templates. -/
def sq : String := ⟨[Char.ofNat 39]⟩

/-- Python `str.endswith`. -/
def strEndsWith (s suffix : String) : Bool :=
  suffix.data.isSuffixOf s.data

/-- Helper for `pyTitle`: capitalize a letter after a non-letter,
lowercase the rest. -/
def titleAux : List Char → Bool → List Char
  | [], _ => []
  | c :: cs, prevAlpha =>
    (if c.isAlpha then (if prevAlpha then c.toLower else c.toUpper) else c)
      :: titleAux cs c.isAlpha

/-- Python `str.title()` on ASCII text. -/
def pyTitle (s : String) : String :=
  ⟨titleAux s.data false⟩

/-- From `reducer_agent/agent.py`, `create_natural_question`: render a
question template keyed by the attribute kind.  (The `texts` parameter
of the source is unused by its body.) -/
def create_natural_question (attr : String) (texts : List String) : String :=
  if cn_color_words.contains attr then
    "Is your item " ++ attr ++ " in color?"
  else if cn_size_words.contains attr then
    "Is your item " ++ attr ++ " sized?"
  else if cn_material_words.contains attr then
    "Is your item made of " ++ attr ++ "?"
  else if cn_feature_words.contains attr then
    if strEndsWith attr "s" then "Does your item have " ++ attr ++ "?"
    else "Does your item have a " ++ attr ++ "?"
  else if (attr.data.headD (Char.ofNat 32)).isUpper || decide (attr.length > 4) then
    "Is your item made by " ++ pyTitle attr ++ "?"
  else
    "Does your item have " ++ sq ++ attr ++ sq ++ " mentioned in its description?"

/-- A candidate question with its discrimination power and reasoning. -/
structure QInfo where
  question : String
  discrimination_power : ℚ
  reasoning : String
deriving DecidableEq

def usage_contexts : List (String × List String) :=
  [("indoor", ["indoor", "home", "office", "house", "room", "desk", "table"]),
   ("outdoor", ["outdoor", "hiking", "camping", "sports", "running", "cycling"]),
   ("professional", ["business", "work", "office", "professional", "meeting"]),
   ("casual", ["casual", "everyday", "daily", "personal", "leisure"])]

def tech_indicators : List String :=
  ["digital", "electronic", "smart", "wifi", "bluetooth", "app", "battery", "charge"]

/-- How many of the texts contain any of the keywords (substring on the
lowered text). -/
def countMatching (keywords : List String) (texts : List String) : Nat :=
  (texts.filter (fun t => keywords.any (fun kw => strContains (pyLower t) kw))).length

/-- From `reducer_agent/agent.py`, `generate_semantic_questions`: one
question per usage context that splits the candidates, plus the
electronic/digital question when the tech indicators split them. -/
def generate_semantic_questions (texts : List String) (analysis : Analysis) : List QInfo :=
  let ctxQs := usage_contexts.filterMap (fun ctx =>
    let count := countMatching ctx.2 texts
    if 0 < count ∧ count < texts.length then
      some ({ question := "Is your item primarily used in " ++ ctx.1 ++ " settings?",
              discrimination_power :=
                ((min count (texts.length - count) : ℕ) : ℚ) / (texts.length : ℚ),
              reasoning := "Usage context discrimination for " ++ ctx.1 } : QInfo)
    else none)
  let tech_count := countMatching tech_indicators texts
  let techQs :=
    if 0 < tech_count ∧ tech_count < texts.length then
      [({ question := "Is your item electronic or digital?",
          discrimination_power :=
            ((min tech_count (texts.length - tech_count) : ℕ) : ℚ) / (texts.length : ℚ),
          reasoning := "Technology level discrimination" } : QInfo)]
    else []
  ctxQs ++ techQs

/-- From `reducer_agent/agent.py`, `generate_potential_questions`:
questions from the top-ten distinguishing features (the rendered
question is always a non-empty template, so the source's truthiness
guard always passes), category questions when more than one category is
present and the category splits the candidates, then the semantic
questions. -/
def generate_potential_questions (analysis : Analysis) (texts : List String) : List QInfo :=
  let fromFeatures := (analysis.distinguishing_features.take 10).map (fun fi =>
    ({ question := create_natural_question fi.attr texts,
       discrimination_power := fi.discrimination_power,
       reasoning := "Based on " ++ sq ++ fi.attr ++ sq ++ " appearing in "
         ++ toString fi.count ++ " out of " ++ toString texts.length ++ " items" } : QInfo))
  let catQs :=
    if analysis.categories.length > 1 then
      analysis.categories.filterMap (fun category =>
        let category_count := analysis.item_types.count category
        if 0 < category_count ∧ category_count < texts.length then
          some ({ question := "Is your item a type of " ++ category ++ "?",
                  discrimination_power :=
                    ((min category_count (texts.length - category_count) : ℕ) : ℚ)
                      / (texts.length : ℚ),
                  reasoning := "Category-based question for " ++ category } : QInfo)
        else none)
    else []
  fromFeatures ++ catQs ++ generate_semantic_questions texts analysis

/-- The analysis outcome carried back by
`analyze_items_and_generate_question`. -/
structure AnalysisResult where
  question : String
  reasoning : String
  confidence : ℚ
deriving DecidableEq

/-- From `reducer_agent/agent.py`, `select_optimal_question`: score each
unasked candidate question (closeness of the discrimination power to one
half, with a bonus for color/material/size wording), stable-sort
descending (Python `sort(key=..., reverse=True)` keeps equal-key order),
and return the best, or `none` when no candidates remain. -/
def question_score (q : QInfo) : ℚ :=
  (1 - |1/2 - q.discrimination_power|)
    + (if ["color", "material", "size"].any (fun w => strContains (pyLower q.question) w)
       then 1/10 else 0)

def select_optimal_question (potential_questions : List QInfo)
    (previous_questions : List String) (texts : List String) : Option AnalysisResult :=
  if potential_questions = [] then none
  else
    let available := potential_questions.filter
      (fun q => ! previous_questions.contains q.question)
    if available = [] then none
    else
      match pySortBy (fun a b => decide (question_score b ≤ question_score a)) available with
      | [] => none
      | best :: _ =>
        some { question := best.question, reasoning := best.reasoning,
               confidence := best.discrimination_power }

/-- From `reducer_agent/agent.py`, `perform_intelligent_analysis`: the
analysis pipeline (the conversation-context parameter is unused by the
source body). -/
def perform_intelligent_analysis (texts : List String)
    (previous_questions : List String) (context : String) : Option AnalysisResult :=
  let item_analysis := analyze_item_characteristics texts
  let potential_questions := generate_potential_questions item_analysis texts
  select_optimal_question potential_questions previous_questions texts

def bag_fallbacks : List String :=
  ["Does your item have multiple compartments or pockets?",
   "Does your item have adjustable straps?",
   "Can your item be worn on your shoulder?"]

def electronics_fallbacks : List String :=
  ["Does your item require charging or batteries?",
   "Does your item have a screen or display?",
   "Can your item connect to other devices?"]

def clothing_fallbacks : List String :=
  ["Is your item designed to be worn on the upper body?",
   "Does your item have sleeves?",
   "Is your item suitable for formal occasions?"]

def generic_fallbacks : List String :=
  ["Is your item primarily made of hard materials?",
   "Does your item have any text or logos visible on it?",
   "Is your item something you would typically carry by hand?",
   "Does your item have any moving or flexible parts?",
   "Is your item designed for outdoor use?",
   "Does your item serve a primarily functional purpose?",
   "Is your item larger than a typical smartphone?",
   "Does your item have any reflective or shiny surfaces?",
   "Would your item typically be found in a professional setting?",
   "Does your item require any special care or maintenance?"]

/-- The final open-ended question returned when every fallback has been
asked already. -/
def catch_all_question : String :=
  "Can you describe any unique features that distinguish your item from similar items?"

/-- From `reducer_agent/agent.py`, `get_intelligent_fallback_question`:
contextual fallbacks chosen from cues in the joined descriptions, then
the generic bank, returning the first question not already asked, and
the open-ended catch-all once everything has been asked. -/
def get_intelligent_fallback_question (texts : List String)
    (previous_questions : List String) : String :=
  let all_text := pyLower (pyJoin " " texts)
  let contextual :=
    (if ["bag", "backpack", "purse", "case"].any (fun w => strContains all_text w)
     then bag_fallbacks else [])
    ++ (if ["electronic", "device", "digital", "tech"].any (fun w => strContains all_text w)
        then electronics_fallbacks else [])
    ++ (if ["clothing", "shirt", "pants", "dress", "wear"].any (fun w => strContains all_text w)
        then clothing_fallbacks else [])
  let all_fallbacks := contextual ++ generic_fallbacks
  match all_fallbacks.find? (fun q => ! previous_questions.contains q) with
  | some q => q
  | none => catch_all_question

/-- The dict returned by `analyze_items_and_generate_question`. -/
structure ReducerResult where
  question : Option String
  reason : Option String
  reasoning : Option String
  confidence : Option ℚ
deriving DecidableEq

/-- From `reducer_agent/agent.py`, `analyze_items_and_generate_question`:
on one candidate or fewer, report that no question is available; else
run the analysis, fall back to the intelligent fallback bank when the
analysis yields nothing (the analysis never yields an empty question
string, so the source's truthiness check coincides with the `Option`
match), append the chosen question to `asked_questions`, and extend the
conversation context. -/
def analyze_items_and_generate_question (texts : List String)
    (s : Chatbot.SessionState) : ReducerResult × Chatbot.SessionState :=
  if texts = [] ∨ texts.length ≤ 1 then
    ({ question := none, reason := some "Not enough items to discriminate",
       reasoning := none, confidence := none }, s)
  else
    let previous_questions := s.asked_questions
    let conversation_context := s.conversation_context.getD ""
    let analysis_result :=
      perform_intelligent_analysis texts previous_questions conversation_context
    let final :=
      match analysis_result with
      | some r => r
      | none =>
        { question := get_intelligent_fallback_question texts previous_questions,
          reasoning := "Used intelligent fallback due to analysis limitations",
          confidence := 3/5 }
    let question := final.question
    let s' := { s with
      asked_questions := previous_questions ++ [question],
      conversation_context :=
        some ((s.conversation_context.getD "") ++ "\nAsked: " ++ question) }
    ({ question := some question, reason := none, reasoning := some final.reasoning,
       confidence := some final.confidence }, s')

end ReducerAgent

end ItemRadar

namespace ItemRadar.SemanticDB

theorem sum_map_le_length (l : List String) (f : String → ℚ) (h : ∀ k, f k ≤ 1) :
    (l.map f).sum ≤ (l.length : ℚ) := by
  induction l with
  | nil => simp
  | cons a t ih =>
    simp only [List.map_cons, List.sum_cons, List.length_cons]
    push_cast
    have := h a
    linarith

theorem attribute_similarity_nonneg (a1 a2 : List (String × String)) :
    0 ≤ calculate_attribute_similarity a1 a2 := by
  unfold calculate_attribute_similarity
  split
  · exact le_refl 0
  · dsimp only
    split
    · exact le_refl 0
    · apply div_nonneg
      · apply List.sum_nonneg
        intro x hx
        simp only [List.mem_map] at hx
        obtain ⟨k, _, rfl⟩ := hx
        split
        · norm_num
        · split <;> norm_num
      · positivity

theorem attribute_similarity_le_one (a1 a2 : List (String × String)) :
    calculate_attribute_similarity a1 a2 ≤ 1 := by
  unfold calculate_attribute_similarity
  split
  · norm_num
  · dsimp only
    split
    · norm_num
    · rename_i hne
      rw [div_le_one]
      · apply sum_map_le_length
        intro k
        dsimp only
        split
        · exact le_refl 1
        · split <;> norm_num
      · have : 0 < (List.filter (fun k => (List.map Prod.fst a2).contains k)
            (List.map Prod.fst a1).eraseDups).length := by
          rcases List.length_pos.mpr hne with h
          exact h
        exact_mod_cast this

theorem keyword_overlap_nonneg (k1 k2 : List String) : 0 ≤ keyword_overlap k1 k2 := by
  unfold keyword_overlap
  split
  · positivity
  · exact le_refl 0

theorem keyword_overlap_le_one (k1 k2 : List String) : keyword_overlap k1 k2 ≤ 1 := by
  unfold keyword_overlap
  split
  · rename_i h
    obtain ⟨h1, _⟩ := h
    have hsub : k1.toFinset ∩ k2.toFinset ⊆ k1.toFinset ∪ k2.toFinset :=
      Finset.inter_subset_left.trans Finset.subset_union_left
    have hcard := Finset.card_le_card hsub
    have hpos : 0 < (k1.toFinset ∪ k2.toFinset).card := by
      apply Finset.card_pos.mpr
      obtain ⟨x, hx⟩ := List.exists_mem_of_ne_nil k1 h1
      exact ⟨x, Finset.mem_union_left _ (List.mem_toFinset.mpr hx)⟩
    rw [div_le_one (by exact_mod_cast hpos)]
    exact_mod_cast hcard
  · norm_num

theorem time_decay_nonneg (t1 t2 : ℤ) : 0 ≤ time_decay t1 t2 := le_max_left 0 _

theorem time_decay_le_one (t1 t2 : ℤ) : time_decay t1 t2 ≤ 1 := by
  unfold time_decay
  apply max_le
  · norm_num
  · have : (0 : ℚ) ≤ ((|t1 - t2| : ℤ) : ℚ) := by positivity
    linarith

theorem calculate_distance_nonneg (lat1 lon1 lat2 lon2 : ℝ) :
    0 ≤ calculate_distance lat1 lon1 lat2 lon2 := by
  unfold calculate_distance
  split
  · exact le_refl 0
  · have harc : 0 ≤ Real.arcsin (Real.sqrt (Real.sin ((radians lat2 - radians lat1) / 2) ^ 2 +
        Real.cos (radians lat1) * Real.cos (radians lat2) *
          Real.sin ((radians lon2 - radians lon1) / 2) ^ 2)) :=
      Real.arcsin_nonneg.mpr (Real.sqrt_nonneg _)
    dsimp only
    nlinarith [harc]

end ItemRadar.SemanticDB

/-- C1: for every pair of item records and every vector similarity in
[0,1], `calculate_match_confidence` equals the weighted sum
0.4·vector_similarity + 0.2·[category equal] + 0.15·[subcategory equal]
+ 0.1·attribute_similarity + 0.05·keyword_jaccard + 0.05·time_decay
+ 0.05·location_decay capped at 1.0, and the result lies in [0,1]. -/
theorem spec_C1_confidence_formula_and_range
    (i1 i2 : ItemRadar.SemanticDB.MatchItemRecord) (vs : ℝ)
    (h0 : 0 ≤ vs) (h1 : vs ≤ 1) :
    ItemRadar.SemanticDB.calculate_match_confidence i1 i2 vs =
      min 1
        (0.4 * vs
          + (if i1.category = i2.category then 0.2 else 0)
          + (if i1.subcategory = i2.subcategory then 0.15 else 0)
          + 0.1 * ((ItemRadar.SemanticDB.calculate_attribute_similarity
              i1.attributes i2.attributes : ℚ) : ℝ)
          + 0.05 * ((ItemRadar.SemanticDB.keyword_overlap i1.keywords i2.keywords : ℚ) : ℝ)
          + 0.05 * ((ItemRadar.SemanticDB.time_decay i1.timestamp i2.timestamp : ℚ) : ℝ)
          + 0.05 * max 0 (1 - ItemRadar.SemanticDB.calculate_distance
              i1.lat i1.lon i2.lat i2.lon / 10)) ∧
    0 ≤ ItemRadar.SemanticDB.calculate_match_confidence i1 i2 vs ∧
    ItemRadar.SemanticDB.calculate_match_confidence i1 i2 vs ≤ 1 := by
  refine ⟨rfl, ?_, ?_⟩
  · unfold ItemRadar.SemanticDB.calculate_match_confidence
    apply le_min (by norm_num)
    have hattr : (0 : ℝ) ≤ ((ItemRadar.SemanticDB.calculate_attribute_similarity
        i1.attributes i2.attributes : ℚ) : ℝ) := by
      exact_mod_cast ItemRadar.SemanticDB.attribute_similarity_nonneg _ _
    have hkw : (0 : ℝ) ≤ ((ItemRadar.SemanticDB.keyword_overlap i1.keywords i2.keywords : ℚ) : ℝ) := by
      exact_mod_cast ItemRadar.SemanticDB.keyword_overlap_nonneg _ _
    have htd : (0 : ℝ) ≤ ((ItemRadar.SemanticDB.time_decay i1.timestamp i2.timestamp : ℚ) : ℝ) := by
      exact_mod_cast ItemRadar.SemanticDB.time_decay_nonneg _ _
    have hld : (0 : ℝ) ≤ max 0 (1 - ItemRadar.SemanticDB.calculate_distance
        i1.lat i1.lon i2.lat i2.lon / 10) := le_max_left 0 _
    have hc : (0 : ℝ) ≤ (if i1.category = i2.category then (0.2 : ℝ) else 0) := by
      split <;> norm_num
    have hs : (0 : ℝ) ≤ (if i1.subcategory = i2.subcategory then (0.15 : ℝ) else 0) := by
      split <;> norm_num
    linarith
  · exact min_le_left _ _

/-- C1 witness: the theorem instantiated at concrete item records and
vector similarity one half. -/
theorem spec_C1_confidence_formula_and_range_witness :
    0 ≤ (1/2 : ℝ) ∧ (1/2 : ℝ) ≤ 1 ∧
    (ItemRadar.SemanticDB.calculate_match_confidence
        ⟨"bags", "backpack", [("color", "blue")], ["blue", "backpack"], 0, 0, 0⟩
        ⟨"bags", "backpack", [("color", "blue")], ["blue", "backpack"], 1, 0, 0⟩ (1/2) =
      min 1
        (0.4 * (1/2 : ℝ)
          + (if ("bags" : String) = "bags" then 0.2 else 0)
          + (if ("backpack" : String) = "backpack" then 0.15 else 0)
          + 0.1 * ((ItemRadar.SemanticDB.calculate_attribute_similarity
              [("color", "blue")] [("color", "blue")] : ℚ) : ℝ)
          + 0.05 * ((ItemRadar.SemanticDB.keyword_overlap
              ["blue", "backpack"] ["blue", "backpack"] : ℚ) : ℝ)
          + 0.05 * ((ItemRadar.SemanticDB.time_decay 0 1 : ℚ) : ℝ)
          + 0.05 * max 0 (1 - ItemRadar.SemanticDB.calculate_distance 0 0 0 0 / 10)) ∧
      0 ≤ ItemRadar.SemanticDB.calculate_match_confidence
        ⟨"bags", "backpack", [("color", "blue")], ["blue", "backpack"], 0, 0, 0⟩
        ⟨"bags", "backpack", [("color", "blue")], ["blue", "backpack"], 1, 0, 0⟩ (1/2) ∧
      ItemRadar.SemanticDB.calculate_match_confidence
        ⟨"bags", "backpack", [("color", "blue")], ["blue", "backpack"], 0, 0, 0⟩
        ⟨"bags", "backpack", [("color", "blue")], ["blue", "backpack"], 1, 0, 0⟩ (1/2) ≤ 1) :=
  ⟨by norm_num, by norm_num,
    spec_C1_confidence_formula_and_range _ _ (1/2) (by norm_num) (by norm_num)⟩

/-- C9: the haversine `calculate_distance` is symmetric, vanishes on
identical coordinate pairs, and is non-negative (Earth radius 6371 km). -/
theorem spec_C9_distance_metric_properties :
    (∀ lat1 lon1 lat2 lon2 : ℝ,
      ItemRadar.SemanticDB.calculate_distance lat1 lon1 lat2 lon2 =
        ItemRadar.SemanticDB.calculate_distance lat2 lon2 lat1 lon1) ∧
    (∀ lat lon : ℝ, ItemRadar.SemanticDB.calculate_distance lat lon lat lon = 0) ∧
    (∀ lat1 lon1 lat2 lon2 : ℝ,
      0 ≤ ItemRadar.SemanticDB.calculate_distance lat1 lon1 lat2 lon2) := by
  refine ⟨?_, ?_, ?_⟩
  · intro lat1 lon1 lat2 lon2
    unfold ItemRadar.SemanticDB.calculate_distance
    by_cases h : lat1 = lat2 ∧ lon1 = lon2
    · rw [if_pos h, if_pos ⟨h.1.symm, h.2.symm⟩]
    · have h' : ¬ (lat2 = lat1 ∧ lon2 = lon1) := by
        intro hc
        exact h ⟨hc.1.symm, hc.2.symm⟩
      rw [if_neg h, if_neg h']
      dsimp only
      have e1 : (ItemRadar.SemanticDB.radians lat1 - ItemRadar.SemanticDB.radians lat2) / 2 =
          -((ItemRadar.SemanticDB.radians lat2 - ItemRadar.SemanticDB.radians lat1) / 2) := by
        ring
      have e2 : (ItemRadar.SemanticDB.radians lon1 - ItemRadar.SemanticDB.radians lon2) / 2 =
          -((ItemRadar.SemanticDB.radians lon2 - ItemRadar.SemanticDB.radians lon1) / 2) := by
        ring
      rw [e1, e2, Real.sin_neg, Real.sin_neg]
      ring_nf
  · intro lat lon
    unfold ItemRadar.SemanticDB.calculate_distance
    rw [if_pos ⟨rfl, rfl⟩]
  · intro lat1 lon1 lat2 lon2
    exact ItemRadar.SemanticDB.calculate_distance_nonneg lat1 lon1 lat2 lon2

/-- C8 counterexample: `initiate_search("", "Central Park")` and
`initiate_search("red bag", "")` both succeed with status "started" and
set `search_params`, instead of failing with a `ValidationError`. -/
theorem spec_C8_counterexample :
    (ItemRadar.Chatbot.initiate_search "" "Central Park"
        ItemRadar.Chatbot.emptySession).1.status = "started" ∧
    (ItemRadar.Chatbot.initiate_search "" "Central Park"
        ItemRadar.Chatbot.emptySession).2.search_params = some ("", "Central Park") ∧
    (ItemRadar.Chatbot.initiate_search "red bag" ""
        ItemRadar.Chatbot.emptySession).1.status = "started" ∧
    (ItemRadar.Chatbot.initiate_search "red bag" ""
        ItemRadar.Chatbot.emptySession).2.search_params = some ("red bag", "") :=
  ⟨rfl, rfl, rfl, rfl⟩

/-- C8 amended: `initiate_search` performs no validation at all — for
every description and location, including empty ones, it returns status
"started" and sets `search_params` to exactly that description and
location (and raises no `ValidationError`). -/
theorem spec_C8_initiate_search_unvalidated
    (d l : String) (s : ItemRadar.Chatbot.SessionState) :
    (ItemRadar.Chatbot.initiate_search d l s).1.status = "started" ∧
    (ItemRadar.Chatbot.initiate_search d l s).2 =
      { s with search_params := some (d, l), has_search_params := true } :=
  ⟨rfl, rfl⟩

/-- C3: `store_user_answer` increments `iteration_count` by exactly 1
(the counter starts at 0 in a fresh session), stores the answer, leaves
every other session field unchanged, and the refinement loop applies at
most `max_iterations = 10` filter rounds whatever the sub-agents do. -/
theorem spec_C3_iteration_count_and_cap :
    ItemRadar.Chatbot.emptySession.iteration_count = 0 ∧
    (∀ (a : String) (s : ItemRadar.Chatbot.SessionState),
      (ItemRadar.Chatbot.store_user_answer a s).2.iteration_count = s.iteration_count + 1 ∧
      (ItemRadar.Chatbot.store_user_answer a s).2.user_answer = some a ∧
      (ItemRadar.Chatbot.store_user_answer a s).1.iteration = s.iteration_count + 1 ∧
      (ItemRadar.Chatbot.store_user_answer a s).1.status = "stored" ∧
      (ItemRadar.Chatbot.store_user_answer a s).2.search_params = s.search_params ∧
      (ItemRadar.Chatbot.store_user_answer a s).2.has_search_params = s.has_search_params ∧
      (ItemRadar.Chatbot.store_user_answer a s).2.match_results = s.match_results ∧
      (ItemRadar.Chatbot.store_user_answer a s).2.initial_search_done = s.initial_search_done ∧
      (ItemRadar.Chatbot.store_user_answer a s).2.current_question = s.current_question ∧
      (ItemRadar.Chatbot.store_user_answer a s).2.asked_questions = s.asked_questions ∧
      (ItemRadar.Chatbot.store_user_answer a s).2.conversation_context = s.conversation_context ∧
      (ItemRadar.Chatbot.store_user_answer a s).2.filtering_complete = s.filtering_complete ∧
      (ItemRadar.Chatbot.store_user_answer a s).2.workflow_complete = s.workflow_complete) ∧
    (∀ (step : List String → List String) (ms : List String),
      (ItemRadar.Orchestrator.refinement_loop step ms).2 ≤ 10) := by
  refine ⟨rfl, ?_, ?_⟩
  · intro a s
    refine ⟨rfl, rfl, rfl, rfl, rfl, rfl, rfl, rfl, rfl, rfl, rfl, rfl, rfl⟩
  · intro step ms
    have key : ∀ (n : Nat) (l : List String),
        (ItemRadar.Orchestrator.loop_run step n l).2 ≤ n := by
      intro n
      induction n with
      | zero => intro l; simp [ItemRadar.Orchestrator.loop_run]
      | succ k ih =>
        intro l
        simp only [ItemRadar.Orchestrator.loop_run]
        split
        · simp
        · have := ih (step l)
          dsimp only
          omega
    exact key ItemRadar.Orchestrator.max_iterations ms

/-- C10: `check_workflow_phase` is a pure query — it returns the session
state unchanged, every reported field is read straight off the state,
and the phase is `collecting_info` exactly when search params are
absent, `ready_to_search` exactly when params are present with no
`match_results` key, and `no_matches`/`single_match`/`multiple_matches`
exactly when the stored match count is 0, 1, or more than 1. -/
theorem spec_C10_check_phase_pure_query (s : ItemRadar.Chatbot.SessionState) :
    (ItemRadar.Chatbot.check_workflow_phase s).2 = s ∧
    (ItemRadar.Chatbot.check_workflow_phase s).1.has_search_params = s.has_search_params ∧
    (ItemRadar.Chatbot.check_workflow_phase s).1.search_params = s.search_params ∧
    (ItemRadar.Chatbot.check_workflow_phase s).1.has_match_results = s.match_results.isSome ∧
    (ItemRadar.Chatbot.check_workflow_phase s).1.match_count =
      (s.match_results.getD []).length ∧
    (ItemRadar.Chatbot.check_workflow_phase s).1.iteration_count = s.iteration_count ∧
    (ItemRadar.Chatbot.check_workflow_phase s).1.current_question = s.current_question ∧
    (ItemRadar.Chatbot.check_workflow_phase s).1.filtering_complete = s.filtering_complete ∧
    ((ItemRadar.Chatbot.check_workflow_phase s).1.phase = "collecting_info" ↔
      s.has_search_params = false) ∧
    ((ItemRadar.Chatbot.check_workflow_phase s).1.phase = "ready_to_search" ↔
      (s.has_search_params = true ∧ s.match_results = none)) ∧
    ((ItemRadar.Chatbot.check_workflow_phase s).1.phase = "no_matches" ↔
      (s.has_search_params = true ∧ ∃ l, s.match_results = some l ∧ l.length = 0)) ∧
    ((ItemRadar.Chatbot.check_workflow_phase s).1.phase = "single_match" ↔
      (s.has_search_params = true ∧ ∃ l, s.match_results = some l ∧ l.length = 1)) ∧
    ((ItemRadar.Chatbot.check_workflow_phase s).1.phase = "multiple_matches" ↔
      (s.has_search_params = true ∧ ∃ l, s.match_results = some l ∧ l.length > 1)) := by
  refine ⟨rfl, rfl, rfl, rfl, rfl, rfl, rfl, rfl, ?_, ?_, ?_, ?_, ?_⟩ <;>
    rcases hm : s.match_results with _ | l <;>
    cases hb : s.has_search_params <;>
    simp [ItemRadar.Chatbot.check_workflow_phase, hm, hb] <;>
    rcases l with _ | ⟨x, _ | ⟨y, t⟩⟩ <;>
    simp

namespace ItemRadar.FilterAgent

theorem filterCore_length_le (texts : List String) (question answer : String) :
    (filterCore texts question answer).length ≤ texts.length := by
  unfold filterCore
  dsimp only
  repeat first
  | exact List.length_filter_le _ _
  | exact Nat.zero_le _
  | exact Nat.le_refl _
  | split

theorem filterCore_isEmpty_false (texts : List String) (question answer : String)
    (h : filterCore texts question answer ≠ []) :
    (filterCore texts question answer).isEmpty = false := by
  cases h2 : filterCore texts question answer with
  | nil => exact absurd h2 h
  | cons a t => rfl

end ItemRadar.FilterAgent

/-- C2 counterexample: with the definite answer "yes" to a fallback
keyword question whose keyword every candidate matches, `filter_objects`
returns the full candidate list without the safety net firing — the
count is not strictly reduced even though the safety net did not
trigger. -/
theorem spec_C2_counterexample :
    ItemRadar.FilterAgent.isYesAnswer "yes" = true ∧
    (ItemRadar.FilterAgent.filter_objects ["bag with zipper"]
        "Does it have zipper pockets?" "yes").count = 1 ∧
    (["bag with zipper"] : List String).length = 1 ∧
    ItemRadar.FilterAgent.filterCore ["bag with zipper"]
        "Does it have zipper pockets?" "yes" = ["bag with zipper"] := by
  decide

/-- C2 amended: for every non-empty candidate list and definite yes/no
answer, `filter_objects` returns the branch-filter result unless that
result is empty, in which case the safety net returns the original list
unchanged (so the safety net fires exactly when the filter would leave
zero candidates); the returned count never exceeds the input count, but
it need not strictly decrease. -/
theorem spec_C2_filter_count_never_increases
    (texts : List String) (question answer : String)
    (hne : texts ≠ [])
    (hdef : (ItemRadar.FilterAgent.isYesAnswer answer
      || ItemRadar.FilterAgent.isNoAnswer answer) = true) :
    (ItemRadar.FilterAgent.filter_objects texts question answer).filtered =
      (if ItemRadar.FilterAgent.filterCore texts question answer = [] then texts
       else ItemRadar.FilterAgent.filterCore texts question answer) ∧
    (ItemRadar.FilterAgent.filter_objects texts question answer).count ≤ texts.length ∧
    (ItemRadar.FilterAgent.filter_objects texts question answer).filtered.length ≤
      texts.length := by
  have hcore := ItemRadar.FilterAgent.filterCore_length_le texts question answer
  by_cases hF : ItemRadar.FilterAgent.filterCore texts question answer = []
  · have hres : ItemRadar.FilterAgent.filter_objects texts question answer =
        { filtered := texts, count := texts.length, message := none } := by
      unfold ItemRadar.FilterAgent.filter_objects
      rw [if_neg hne]
      dsimp only
      rw [hF]
      simp [hdef]
    rw [hres, if_pos hF]
    exact ⟨rfl, Nat.le_refl _, Nat.le_refl _⟩
  · have hres : ItemRadar.FilterAgent.filter_objects texts question answer =
        { filtered := ItemRadar.FilterAgent.filterCore texts question answer,
          count := (ItemRadar.FilterAgent.filterCore texts question answer).length,
          message := none } := by
      unfold ItemRadar.FilterAgent.filter_objects
      rw [if_neg hne]
      dsimp only
      rw [ItemRadar.FilterAgent.filterCore_isEmpty_false _ _ _ hF]
      simp
    rw [hres, if_neg hF]
    exact ⟨rfl, hcore, hcore⟩

/-- C2 witness: the amended theorem applied to a concrete singleton
candidate list with the definite answer "yes". -/
theorem spec_C2_filter_count_never_increases_witness :
    ((["bag"] : List String) ≠ [] ∧
      (ItemRadar.FilterAgent.isYesAnswer "yes"
        || ItemRadar.FilterAgent.isNoAnswer "yes") = true) ∧
    ((ItemRadar.FilterAgent.filter_objects ["bag"] "Is it red?" "yes").filtered =
      (if ItemRadar.FilterAgent.filterCore ["bag"] "Is it red?" "yes" = [] then ["bag"]
       else ItemRadar.FilterAgent.filterCore ["bag"] "Is it red?" "yes") ∧
     (ItemRadar.FilterAgent.filter_objects ["bag"] "Is it red?" "yes").count ≤
       (["bag"] : List String).length ∧
     (ItemRadar.FilterAgent.filter_objects ["bag"] "Is it red?" "yes").filtered.length ≤
       (["bag"] : List String).length) :=
  ⟨⟨by decide, by decide⟩,
    spec_C2_filter_count_never_increases ["bag"] "Is it red?" "yes" (by decide) (by decide)⟩

/-- C5 counterexample: an inconclusive answer ("maybe") to a question
routed into the specialized stickers branch filters the list instead of
returning it unchanged — here it removes the only candidate. -/
theorem spec_C5_counterexample :
    ItemRadar.FilterAgent.isYesAnswer "maybe" = false ∧
    ItemRadar.FilterAgent.isNoAnswer "maybe" = false ∧
    (ItemRadar.FilterAgent.filter_objects ["bag with logo"]
        "Does it have stickers?" "maybe").filtered = [] ∧
    (ItemRadar.FilterAgent.filter_objects ["bag with logo"]
        "Does it have stickers?" "maybe").filtered ≠ ["bag with logo"] := by
  decide

/-- C5 amended: an answer recognized as neither affirmative nor negative
leaves the candidate list unchanged only when the question matches none
of the specialized branch patterns (stickers/decals, bicycle+motorcycle
helmet, ventilation holes/vents, scratch/damaged, size, color); the
specialized branches treat an inconclusive answer like a negative one. -/
theorem spec_C5_inconclusive_fallback_unchanged
    (texts : List String) (question answer : String)
    (hy : ItemRadar.FilterAgent.isYesAnswer answer = false)
    (hn : ItemRadar.FilterAgent.isNoAnswer answer = false)
    (hq : ItemRadar.FilterAgent.isSpecializedQuestion question = false) :
    (ItemRadar.FilterAgent.filter_objects texts question answer).filtered = texts := by
  simp only [ItemRadar.FilterAgent.isSpecializedQuestion, Bool.or_eq_false_iff] at hq
  obtain ⟨⟨⟨⟨⟨⟨⟨⟨h1, h2⟩, hbm⟩, h3⟩, h4⟩, h5⟩, h6⟩, h7⟩, h8⟩ := hq
  rcases texts with _ | ⟨t, ts⟩
  · rfl
  · have hcore : ItemRadar.FilterAgent.filterCore (t :: ts) question answer = t :: ts := by
      unfold ItemRadar.FilterAgent.filterCore
      dsimp only
      rw [h1, h2, hbm, h3, h4, h5, h6, h7, h8, hy, hn]
      simp
    unfold ItemRadar.FilterAgent.filter_objects
    rw [if_neg (by simp)]
    dsimp only
    rw [hcore]
    simp [hy, hn]

/-- C5 witness: the amended theorem applied to a concrete fallback-branch
question and the inconclusive answer "maybe". -/
theorem spec_C5_inconclusive_fallback_unchanged_witness :
    (ItemRadar.FilterAgent.isYesAnswer "maybe" = false ∧
     ItemRadar.FilterAgent.isNoAnswer "maybe" = false ∧
     ItemRadar.FilterAgent.isSpecializedQuestion "Is it red?" = false) ∧
    (ItemRadar.FilterAgent.filter_objects ["red bag"] "Is it red?" "maybe").filtered =
      ["red bag"] :=
  ⟨⟨by decide, by decide, by decide⟩,
    spec_C5_inconclusive_fallback_unchanged ["red bag"] "Is it red?" "maybe"
      (by decide) (by decide) (by decide)⟩

/-- C6: whenever the oracle call fails, its response contains no
extractable JSON object, or parsing the extracted text fails,
`enhance_description_with_ai` returns exactly the fallback record (raw
description, category "other", subcategory "unknown", empty attributes,
lower-cased whitespace split of the raw description as keywords, no
synonyms) and raises nothing (the embedding is a total function). -/
theorem spec_C6_extraction_failure_fallback (raw : String) (response : Option String)
    (parse : String → Option ItemRadar.SemanticDB.AIJson)
    (hraw : raw ≠ "")
    (hfail : response = none ∨ ∀ r, response = some r →
      (ItemRadar.SemanticDB.extract_json (ItemRadar.pyStrip r) = none ∨
        ∀ js, ItemRadar.SemanticDB.extract_json (ItemRadar.pyStrip r) = some js →
          parse js = none)) :
    ItemRadar.SemanticDB.enhance_description_with_ai raw response parse =
      { ai_description := raw, category := "other", subcategory := "unknown",
        attributes := [], keywords := ItemRadar.pySplit (ItemRadar.pyLower raw),
        synonyms := [] } := by
  rcases hfail with h | h
  · rw [h]
    rfl
  · cases response with
    | none => rfl
    | some r =>
      rcases h r rfl with h2 | h2
      · simp [ItemRadar.SemanticDB.enhance_description_with_ai, h2]
      · cases hjs : ItemRadar.SemanticDB.extract_json (ItemRadar.pyStrip r) with
        | none =>
          simp [ItemRadar.SemanticDB.enhance_description_with_ai, hjs]
        | some js =>
          simp [ItemRadar.SemanticDB.enhance_description_with_ai, hjs, h2 js hjs]

/-- C6 witness: the theorem applied to the raw description "red bag"
with a failed oracle call. -/
theorem spec_C6_extraction_failure_fallback_witness :
    ("red bag" : String) ≠ "" ∧
    ItemRadar.SemanticDB.enhance_description_with_ai "red bag" none (fun _ => none) =
      { ai_description := "red bag", category := "other", subcategory := "unknown",
        attributes := [], keywords := ["red", "bag"], synonyms := [] } := by
  refine ⟨by decide, ?_⟩
  rw [spec_C6_extraction_failure_fallback "red bag" none (fun _ => none) (by decide)
    (Or.inl rfl)]
  decide

/-- C7 counterexample: with every service healthy except the embedding
request, `register_item` aborts with a typed error and persists nothing —
the registration does not proceed without a vector, contradicting the
claim that the item is still persisted. -/
theorem spec_C7_counterexample :
    (ItemRadar.SemanticDB.register_item "red bag" ItemRadar.SemanticDB.ItemType.lost
        "a@b.com" "addr" 0 0 none
        ⟨none, fun _ => none, Except.error "boom", Except.ok (), Except.ok (),
          Except.ok (), "g", "deadbeef", 0⟩
        ⟨[], [], []⟩).1.status = "error" ∧
    (ItemRadar.SemanticDB.register_item "red bag" ItemRadar.SemanticDB.ItemType.lost
        "a@b.com" "addr" 0 0 none
        ⟨none, fun _ => none, Except.error "boom", Except.ok (), Except.ok (),
          Except.ok (), "g", "deadbeef", 0⟩
        ⟨[], [], []⟩).1.error_message = some "Failed to generate embedding: boom" ∧
    (ItemRadar.SemanticDB.register_item "red bag" ItemRadar.SemanticDB.ItemType.lost
        "a@b.com" "addr" 0 0 none
        ⟨none, fun _ => none, Except.error "boom", Except.ok (), Except.ok (),
          Except.ok (), "g", "deadbeef", 0⟩
        ⟨[], [], []⟩).2.items = [] := by
  decide

/-- C7 amended: on a validated input, an embedding failure makes
`register_item` return a typed error dict without raising and abort the
registration with the stores untouched; it is the vector-index upsert
whose failure is non-fatal (registration still succeeds, only the index
entry is missing); document-store failure remains fatal. -/
theorem spec_C7_embedding_failure_aborts
    (raw : String) (ty : ItemRadar.SemanticDB.ItemType) (email addr : String)
    (lat lon : ℚ) (img : Option String)
    (ext : ItemRadar.SemanticDB.ExternalServices) (db : ItemRadar.SemanticDB.DBState)
    (hdesc : ItemRadar.pyStrip raw ≠ "")
    (hco : ItemRadar.SemanticDB.is_valid_coordinates lat lon = true)
    (hem : ItemRadar.strContains (ItemRadar.SemanticDB.normalize_email email) "@" = true) :
    (∀ e, ext.embed_result = Except.error e →
      ItemRadar.SemanticDB.register_item raw ty email addr lat lon img ext db =
        (ItemRadar.SemanticDB.registerError ("Failed to generate embedding: " ++ e), db)) ∧
    (∀ v, ext.embed_result = Except.ok v → ext.store_set_item = Except.ok () →
      ext.store_set_category = Except.ok () →
      (ItemRadar.SemanticDB.register_item raw ty email addr lat lon img ext db).1.status =
        "success") ∧
    (∀ v e, ext.embed_result = Except.ok v → ext.index_upsert = Except.error e →
      (ItemRadar.SemanticDB.register_item raw ty email addr lat lon img ext db).2.index =
        db.index) ∧
    (∀ v e, ext.embed_result = Except.ok v → ext.store_set_item = Except.error e →
      (ItemRadar.SemanticDB.register_item raw ty email addr lat lon img ext db).1.status =
        "error" ∧
      (ItemRadar.SemanticDB.register_item raw ty email addr lat lon img ext db).2.items =
        db.items) := by
  refine ⟨?_, ?_, ?_, ?_⟩
  · intro e he
    simp [ItemRadar.SemanticDB.register_item, hdesc, hco, hem, he]
  · intro v hv h1 h2
    simp [ItemRadar.SemanticDB.register_item, hdesc, hco, hem, hv, h1, h2]
  · intro v e hv hidx
    cases hsi : ext.store_set_item with
    | error e2 =>
      simp [ItemRadar.SemanticDB.register_item, hdesc, hco, hem, hv, hidx, hsi]
    | ok u =>
      cases hsc : ext.store_set_category with
      | error e3 =>
        simp [ItemRadar.SemanticDB.register_item, hdesc, hco, hem, hv, hidx, hsi, hsc]
      | ok u2 =>
        simp [ItemRadar.SemanticDB.register_item, hdesc, hco, hem, hv, hidx, hsi, hsc]
  · intro v e hv hsi
    cases hidx : ext.index_upsert with
    | error e2 =>
      simp [ItemRadar.SemanticDB.register_item, ItemRadar.SemanticDB.registerError,
        hdesc, hco, hem, hv, hsi, hidx]
    | ok u =>
      simp [ItemRadar.SemanticDB.register_item, ItemRadar.SemanticDB.registerError,
        hdesc, hco, hem, hv, hsi, hidx]

/-- C7 witness: the amended theorem applied to a concrete validated
registration request. -/
theorem spec_C7_embedding_failure_aborts_witness :
    (ItemRadar.pyStrip "red bag" ≠ "" ∧
     ItemRadar.SemanticDB.is_valid_coordinates 0 0 = true ∧
     ItemRadar.strContains (ItemRadar.SemanticDB.normalize_email "a@b.com") "@" = true) ∧
    (∀ e, (⟨none, fun _ => none, Except.error "boom", Except.ok (), Except.ok (),
        Except.ok (), "g", "deadbeef", 0⟩ :
          ItemRadar.SemanticDB.ExternalServices).embed_result = Except.error e →
      ItemRadar.SemanticDB.register_item "red bag" ItemRadar.SemanticDB.ItemType.lost
          "a@b.com" "addr" 0 0 none
          ⟨none, fun _ => none, Except.error "boom", Except.ok (), Except.ok (),
            Except.ok (), "g", "deadbeef", 0⟩
          ⟨[], [], []⟩ =
        (ItemRadar.SemanticDB.registerError ("Failed to generate embedding: " ++ e),
          ⟨[], [], []⟩)) :=
  ⟨⟨by decide, by decide, by decide⟩,
    (spec_C7_embedding_failure_aborts "red bag" ItemRadar.SemanticDB.ItemType.lost
      "a@b.com" "addr" 0 0 none
      ⟨none, fun _ => none, Except.error "boom", Except.ok (), Except.ok (),
        Except.ok (), "g", "deadbeef", 0⟩
      ⟨[], [], []⟩ (by decide) (by decide) (by decide)).1⟩

namespace ItemRadar.ReducerAgent

theorem mem_pyInsertBy {α : Type} (le : α → α → Bool) (x y : α) :
    ∀ l : List α, y ∈ pyInsertBy le x l → y = x ∨ y ∈ l := by
  intro l
  induction l with
  | nil =>
    intro h
    simp [pyInsertBy] at h
    exact Or.inl h
  | cons a t ih =>
    intro h
    simp only [pyInsertBy] at h
    split at h
    · rcases List.mem_cons.mp h with rfl | h2
      · exact Or.inl rfl
      · exact Or.inr h2
    · rcases List.mem_cons.mp h with rfl | h2
      · exact Or.inr (List.mem_cons_self _ _)
      · rcases ih h2 with h3 | h3
        · exact Or.inl h3
        · exact Or.inr (List.mem_cons_of_mem _ h3)

theorem mem_pySortBy {α : Type} (le : α → α → Bool) (y : α) :
    ∀ l : List α, y ∈ pySortBy le l → y ∈ l := by
  intro l
  induction l with
  | nil => intro h; exact h
  | cons a t ih =>
    intro h
    rcases mem_pyInsertBy le a y (pySortBy le t) h with rfl | h2
    · exact List.mem_cons_self _ _
    · exact List.mem_cons_of_mem _ (ih h2)

theorem contains_false_not_mem (x : String) :
    ∀ l : List String, l.contains x = false → x ∉ l := by
  intro l
  induction l with
  | nil =>
    intro _ h
    cases h
  | cons a t ih =>
    intro h hm
    simp only [List.contains_cons, Bool.or_eq_false_iff] at h
    rcases List.mem_cons.mp hm with rfl | hm2
    · simp at h
    · exact ih h.2 hm2

theorem select_optimal_not_previous (pq : List QInfo) (prev : List String)
    (texts : List String) (r : AnalysisResult)
    (h : select_optimal_question pq prev texts = some r) : r.question ∉ prev := by
  unfold select_optimal_question at h
  split at h
  · exact absurd h (by simp)
  · dsimp only at h
    split at h
    · exact absurd h (by simp)
    · rename_i hav
      cases hsort : pySortBy (fun a b => decide (question_score b ≤ question_score a))
          (pq.filter (fun q => ! prev.contains q.question)) with
      | nil =>
        rw [hsort] at h
        exact absurd h (by simp)
      | cons best rest =>
        rw [hsort] at h
        have hq : r.question = best.question := by
          cases h
          rfl
        have hmem : best ∈ pq.filter (fun q => ! prev.contains q.question) := by
          apply mem_pySortBy
          rw [hsort]
          exact List.mem_cons_self _ _
        have hfilter := List.mem_filter.mp hmem
        have hc : prev.contains best.question = false := by
          have := hfilter.2
          simp only [Bool.not_eq_true'] at this
          exact this
        rw [hq]
        exact contains_false_not_mem _ _ hc

theorem fallback_not_previous_or_catch_all (texts : List String) (prev : List String) :
    get_intelligent_fallback_question texts prev ∉ prev ∨
      get_intelligent_fallback_question texts prev = catch_all_question := by
  unfold get_intelligent_fallback_question
  dsimp only
  cases hfind : List.find? (fun q => ! prev.contains q)
      (((if ["bag", "backpack", "purse", "case"].any
            (fun w => strContains (pyLower (pyJoin " " texts)) w)
          then bag_fallbacks else [])
        ++ (if ["electronic", "device", "digital", "tech"].any
              (fun w => strContains (pyLower (pyJoin " " texts)) w)
            then electronics_fallbacks else [])
        ++ (if ["clothing", "shirt", "pants", "dress", "wear"].any
              (fun w => strContains (pyLower (pyJoin " " texts)) w)
            then clothing_fallbacks else []))
      ++ generic_fallbacks) with
  | none =>
    exact Or.inr rfl
  | some q =>
    left
    have hp := List.find?_some hfind
    simp only [Bool.not_eq_true'] at hp
    exact contains_false_not_mem _ _ hp

end ItemRadar.ReducerAgent

/-- C4 counterexample: when the analysis yields no candidate question
(identical, featureless descriptions) and every fallback question, the
catch-all included, is already in `asked_questions`, the reducer returns
the catch-all again — a question that is an element of the prior
`asked_questions`. -/
theorem spec_C4_counterexample :
    2 ≤ (["a", "a"] : List String).length ∧
    (ItemRadar.ReducerAgent.analyze_items_and_generate_question ["a", "a"]
        { ItemRadar.Chatbot.emptySession with
            asked_questions := ItemRadar.ReducerAgent.generic_fallbacks
              ++ [ItemRadar.ReducerAgent.catch_all_question] }).1.question =
      some ItemRadar.ReducerAgent.catch_all_question ∧
    ItemRadar.ReducerAgent.catch_all_question ∈
      ({ ItemRadar.Chatbot.emptySession with
          asked_questions := ItemRadar.ReducerAgent.generic_fallbacks
            ++ [ItemRadar.ReducerAgent.catch_all_question] } :
        ItemRadar.Chatbot.SessionState).asked_questions := by
  refine ⟨by decide, by decide, by decide⟩

/-- C4 amended: with at least two candidates the reducer always returns
a question (it reports no question available only for at most one
candidate), and the returned question is never an element of the prior
`asked_questions` except possibly the final open-ended catch-all, which
can repeat once every fallback question has already been asked. -/
theorem spec_C4_question_selector (texts : List String)
    (s : ItemRadar.Chatbot.SessionState) (h2 : 2 ≤ texts.length) :
    (∃ q, (ItemRadar.ReducerAgent.analyze_items_and_generate_question texts s).1.question =
      some q) ∧
    (∀ q, (ItemRadar.ReducerAgent.analyze_items_and_generate_question texts s).1.question =
        some q →
      q ∉ s.asked_questions ∨ q = ItemRadar.ReducerAgent.catch_all_question) := by
  have hcond : ¬ (texts = [] ∨ texts.length ≤ 1) := by
    rintro (rfl | hle)
    · simp at h2
    · omega
  unfold ItemRadar.ReducerAgent.analyze_items_and_generate_question
  rw [if_neg hcond]
  dsimp only
  cases hpa : ItemRadar.ReducerAgent.perform_intelligent_analysis texts s.asked_questions
      (s.conversation_context.getD "") with
  | some r =>
    refine ⟨⟨r.question, rfl⟩, ?_⟩
    intro q hq
    have hqr : q = r.question := by
      cases hq
      rfl
    subst hqr
    have hsel : ItemRadar.ReducerAgent.select_optimal_question
        (ItemRadar.ReducerAgent.generate_potential_questions
          (ItemRadar.ReducerAgent.analyze_item_characteristics texts) texts)
        s.asked_questions texts = some r := hpa
    exact Or.inl (ItemRadar.ReducerAgent.select_optimal_not_previous _ _ _ _ hsel)
  | none =>
    refine ⟨⟨ItemRadar.ReducerAgent.get_intelligent_fallback_question texts
      s.asked_questions, rfl⟩, ?_⟩
    intro q hq
    have hqr : q = ItemRadar.ReducerAgent.get_intelligent_fallback_question texts
        s.asked_questions := by
      cases hq
      rfl
    subst hqr
    exact ItemRadar.ReducerAgent.fallback_not_previous_or_catch_all texts s.asked_questions

/-- C4 witness: the amended theorem applied to two concrete distinct
candidate descriptions in a fresh session. -/
theorem spec_C4_question_selector_witness :
    2 ≤ (["red bag", "blue bag"] : List String).length ∧
    ((∃ q, (ItemRadar.ReducerAgent.analyze_items_and_generate_question
        ["red bag", "blue bag"] ItemRadar.Chatbot.emptySession).1.question = some q) ∧
     (∀ q, (ItemRadar.ReducerAgent.analyze_items_and_generate_question
          ["red bag", "blue bag"] ItemRadar.Chatbot.emptySession).1.question = some q →
        q ∉ ItemRadar.Chatbot.emptySession.asked_questions ∨
          q = ItemRadar.ReducerAgent.catch_all_question)) :=
  ⟨by decide,
    spec_C4_question_selector ["red bag", "blue bag"] ItemRadar.Chatbot.emptySession
      (by decide)⟩
